import Mathlib

/-!
Verification of the specification-extraction engine of `script5.py`
(air-conditioner consumption simulator).

The Python functions `parse_power_value`, `find_energy_class`,
`extract_specs_from_text`, the control flow of `fetch_product_specs`, and
the module-level acceptance/merge logic are embedded as executable Lean
definitions.  Python floats are modelled as rationals (all numbers reached
by the claims are exactly representable and no float rounding is
observable at the stated precision).  The regular expressions of the
source are compiled by hand into deterministic scanners; for each of them
the character classes involved are pairwise disjoint at every boundary, so
the greedy, leftmost-match scanners below implement exactly Python's
`re.search` semantics.  Case folding is modelled on ASCII letters (all
inputs in the claims, and the pattern letters, use ASCII case only; the
accented letters appearing in the patterns are already lower-case).
-/

namespace Script5

/-- ASCII lower-casing, the fragment of Python `str.lower` exercised here. -/
def lowerChar (c : Char) : Char :=
  if 65 ≤ c.toNat ∧ c.toNat ≤ 90 then Char.ofNat (c.toNat + 32) else c

/-- Character class `\d` (ASCII digits). -/
def isDigitCh (c : Char) : Bool := c.isDigit

/-- Character class `[\d.,]` of the numeric tokens. -/
def isNumCh (c : Char) : Bool := c.isDigit || c == '.' || c == ','

/-- Character class `\s` (ASCII whitespace). -/
def isWsCh (c : Char) : Bool :=
  c == ' ' || c == '\t' || c == '\n' || c == '\r' || c == '\x0b' || c == '\x0c'

/-- Character class `[:\s]` separating a label from its value. -/
def isSepCh (c : Char) : Bool := c == ':' || isWsCh c

/-- The alternation `(w|kw|btu)`, case-insensitive, tried in the source's
order; returns the matched characters (as they stand in the input) and the
rest of the input.  The three alternatives start with distinct letters, so
the alternation is deterministic. -/
def matchUnitTok : List Char → Option (List Char × List Char)
  | [] => none
  | c :: rest =>
    if lowerChar c == 'w' then some ([c], rest)
    else if lowerChar c == 'k' then
      match rest with
      | c2 :: rest2 => if lowerChar c2 == 'w' then some ([c, c2], rest2) else none
      | [] => none
    else if lowerChar c == 'b' then
      match rest with
      | c2 :: c3 :: rest3 =>
        if lowerChar c2 == 't' && lowerChar c3 == 'u' then some ([c, c2, c3], rest3) else none
      | _ => none
    else none

/-- One attempt of `(\d+[\d.,]*)\s*(w|kw|btu)/?h?` anchored at the head of
the list: a digit, then the maximal run of `[\d.,]`, then maximal
whitespace, then a unit.  Returns (first-group characters, canonical
lower-case unit token). -/
def powerMatchAt : List Char → Option (List Char × String)
  | [] => none
  | c :: rest =>
    if isDigitCh c then
      match matchUnitTok ((rest.dropWhile isNumCh).dropWhile isWsCh) with
      | some (u, _) => some (c :: rest.takeWhile isNumCh, String.mk (u.map lowerChar))
      | none => none
    else none

/-- `re.search` for the power-value pattern: leftmost match wins. -/
def firstPowerMatch : List Char → Option (List Char × String)
  | [] => none
  | c :: rest =>
    match powerMatchAt (c :: rest) with
    | some r => some r
    | none => firstPowerMatch rest

/-- Numeric value of a digit string (most significant first). -/
def natOfDigits (l : List Char) : ℕ :=
  l.foldl (fun n c => 10 * n + (c.toNat - 48)) 0

/-- `value.replace(',', '.')` on the matched numeric token. -/
def replaceCommas (l : List Char) : List Char :=
  l.map (fun c => if c == ',' then '.' else c)

/-- Python `float()` restricted to the alphabet reachable from the regex
match (digits and dots after comma replacement): the conversion succeeds
iff the token has at most one dot and at least one digit.  The value is
returned unscaled as (mantissa, number of fractional digits), i.e. the
rational mantissa / 10 ^ fracLen. -/
def pyFloatNum (l : List Char) : Option (ℕ × ℕ) :=
  if l.all (fun c => c.isDigit || c == '.') && l.count '.' ≤ 1
      && l.any (fun c => c.isDigit) then
    some (natOfDigits (l.filter isDigitCh), ((l.dropWhile isDigitCh).drop 1).length)
  else none

/-- The rational value of a parsed float. -/
def pyFloat (l : List Char) : Option ℚ :=
  (pyFloatNum l).map (fun p => (p.1 : ℚ) / (10 : ℚ) ^ p.2)

/-- The `conversions` dictionary as exact fractions: 1, 1000 and
0.29307107 = 29307107 / 100000000 watts per unit. -/
def unitFactorNum (u : String) : Option (ℕ × ℕ) :=
  if u = "w" then some (1, 1)
  else if u = "kw" then some (1000, 1)
  else if u = "btu" then some (29307107, 100000000)
  else none

/-- The `conversions` dictionary: watt factors per unit token. -/
def unitFactor (u : String) : Option ℚ :=
  (unitFactorNum u).map (fun p => (p.1 : ℚ) / (p.2 : ℚ))

/-- `parse_power_value`: search the power pattern, convert the numeric
token (comma as decimal separator) and scale by the unit factor; any
failure (no match, malformed numeric, unknown unit) yields `none`, exactly
like the source's `return None` and bare `except`. -/
def parse_power_value (s : String) : Option ℚ :=
  match firstPowerMatch s.toList with
  | none => none
  | some (numTok, unitTok) =>
    match unitFactor unitTok with
    | none => none
    | some f =>
      match pyFloat (replaceCommas numTok) with
      | none => none
      | some v => some (v * f)

/-- The spec's `UnitConverter.convert(number, unit)` corresponds in the
source to `parse_power_value` applied to the number followed by the unit
token. -/
def convert (num unit : String) : Option ℚ :=
  parse_power_value (num ++ " " ++ unit)

/-- Case-insensitive literal match of a pattern (given in lower case) at
the head of the input; returns the rest of the input on success. -/
def stripCI : List Char → List Char → Option (List Char)
  | [], l => some l
  | _ :: _, [] => none
  | p :: ps, c :: cs => if lowerChar c == p then stripCI ps cs else none

/-- Python substring containment (the `in` operator on strings). -/
def containsSub (needle : List Char) : List Char → Bool
  | [] => needle.isEmpty
  | c :: rest => needle.isPrefixOf (c :: rest) || containsSub needle rest

/-- The label alternation `(classe énergétique|energy class)`; the two
alternatives start with distinct letters, so the alternation is
deterministic. -/
def energyLabelAt (l : List Char) : Option (List Char) :=
  match stripCI "classe énergétique".toList l with
  | some r => some r
  | none => stripCI "energy class".toList l

/-- `[:\s]*([A-G][\+]*)` after a label: skip separators, require a letter
in the class `[A-G]` (case-insensitive), then take every following `+`.
Returns the second capture group as it stands in the input. -/
def energyValueAt (l : List Char) : Option (List Char) :=
  match l.dropWhile isSepCh with
  | [] => none
  | c :: rest =>
    if 'a' ≤ lowerChar c ∧ lowerChar c ≤ 'g' then
      some (c :: rest.takeWhile (fun x => x == '+'))
    else none

/-- One anchored attempt of the energy-class pattern. -/
def energyMatchAt (l : List Char) : Option (List Char) :=
  match energyLabelAt l with
  | some r => energyValueAt r
  | none => none

/-- `re.search` for the energy-class pattern: leftmost match wins. -/
def energySearch : List Char → Option (List Char)
  | [] => none
  | c :: rest =>
    match energyMatchAt (c :: rest) with
    | some v => some v
    | none => energySearch rest

/-- `find_energy_class`: the text of the second capture group, exactly as
matched (the source performs no case normalisation on it). -/
def find_energy_class (s : String) : Option String :=
  (energySearch s.toList).map String.mk

/-- First label of an alternation list that matches at the head of the
input (the label lists used below are pairwise prefix-incompatible, so at
most one alternative matches, as in the source's regexes). -/
def stripLabelAny (labels : List (List Char)) (l : List Char) : Option (List Char) :=
  match labels with
  | [] => none
  | p :: ps =>
    match stripCI p l with
    | some r => some r
    | none => stripLabelAny ps l

/-- `([\d.,]+\s*(w|kw|btu))` anchored at the head: a non-empty maximal run
of `[\d.,]`, maximal whitespace, then a unit.  Returns the whole second
capture group as it stands in the input. -/
def powerTokenAt (l : List Char) : Option (List Char) :=
  if (l.takeWhile isNumCh).isEmpty then none
  else
    match matchUnitTok ((l.dropWhile isNumCh).dropWhile isWsCh) with
    | some (u, _) => some (l.takeWhile isNumCh ++ (l.dropWhile isNumCh).takeWhile isWsCh ++ u)
    | none => none

/-- One anchored attempt of `(<labels>)[:\s]*([\d.,]+\s*(w|kw|btu))`. -/
def specMatchAt (labels : List (List Char)) (l : List Char) : Option (List Char) :=
  match stripLabelAny labels l with
  | some r => powerTokenAt (r.dropWhile isSepCh)
  | none => none

/-- `re.search` for a labelled power field: leftmost match wins. -/
def specSearch (labels : List (List Char)) : List Char → Option (List Char)
  | [] => none
  | c :: rest =>
    match specMatchAt labels (c :: rest) with
    | some v => some v
    | none => specSearch labels rest

/-- Label synonyms of the consumption field, in the source's order. -/
def consumptionLabels : List (List Char) :=
  ["consommation".toList, "puissance absorbée".toList, "power consumption".toList]

/-- Label synonyms of the cooling-capacity field, in the source's order. -/
def coolingLabels : List (List Char) :=
  ["puissance frigorifique".toList, "cooling capacity".toList, "capacity".toList]

/-- The `specs` dictionary built by `extract_specs_from_text`: the
`inverter` entry always holds one of the two strings assigned by the
source, the three other entries may stay `None`. -/
structure Specs where
  consumption_w : Option ℚ
  cooling_w : Option ℚ
  inverter : String
  energy_class : Option String
deriving DecidableEq, Repr

/-- `text.lower()` (ASCII fragment). -/
def pyLower (s : String) : String := String.mk (s.toList.map lowerChar)

/-- `extract_specs_from_text`: lower-case the text, then extract the four
fields independently; a found label whose value fails to parse leaves the
field `None`, exactly like the source. -/
def extract_specs_from_text (s : String) : Specs :=
  { consumption_w :=
      (specSearch consumptionLabels (pyLower s).toList).bind
        (fun g2 => parse_power_value (String.mk g2))
  , cooling_w :=
      (specSearch coolingLabels (pyLower s).toList).bind
        (fun g2 => parse_power_value (String.mk g2))
  , inverter :=
      if containsSub "inverter".toList (pyLower s).toList then "Inverter" else "Non-Inverter"
  , energy_class := (energySearch (pyLower s).toList).map String.mk }

/-! ### The source fallback chain (`fetch_product_specs`)

The network, PDF decoding and HTML scraping are external collaborators:
they are injected as an environment giving, per state, either the raw text
that state obtains or `none` for a failure of any kind at any step inside
the state (network error, no PDF candidate, decode failure — all collapsed
by the source's bare `except` into one silent outcome).  The source's
malformed redirect-unwrapping expression on the PDF path is part of that
collapsed PDF-state outcome. -/

/-- The two states of the fallback chain, in chain order. -/
inductive SourceState
  | PDF_SEARCH
  | HTML_SEARCH
deriving DecidableEq, Repr

/-- Injected outcome of each state's external work. -/
structure FetchEnv where
  pdfText : Option String
  htmlText : Option String

/-- Raw text obtained by one state under an environment. -/
def attemptSource (env : FetchEnv) : SourceState → Option String
  | SourceState.PDF_SEARCH => env.pdfText
  | SourceState.HTML_SEARCH => env.htmlText

/-- Run the chain over a list of states: the first state that yields text
feeds `extract_specs_from_text` and ends the run; a failed state is passed
over silently.  Returns the trace of attempted states and the result. -/
def runChain (env : FetchEnv) : List SourceState → List SourceState × Option Specs
  | [] => ([], none)
  | s :: rest =>
    match attemptSource env s with
    | some t => ([s], some (extract_specs_from_text t))
    | none => ((runChain env rest).1.cons s, (runChain env rest).2)

/-- `fetch_product_specs`: the fixed two-state chain of the source — the
PDF attempt inside the first `try`, then the HTML attempt, then
`return None`. -/
def fetch_product_specs (env : FetchEnv) : List SourceState × Option Specs :=
  runChain env [SourceState.PDF_SEARCH, SourceState.HTML_SEARCH]

/-! ### Module-level acceptance and merge -/

/-- The manual inputs of the Streamlit form (the widgets always hold a
value; `0.0` is the number inputs' initial state). -/
structure ManualInput where
  consumption : ℚ
  cooling_power : ℚ
  inverter : String
  energy_class : String

/-- Python truthiness of an optional float: `None` and `0.0` are falsy. -/
def truthyQ (o : Option ℚ) : Bool :=
  match o with
  | none => false
  | some q => decide (q ≠ 0)

/-- The module-level acceptance test: `if specs and specs['consumption_w']
and specs['cooling_w']` keeps the automatic result, otherwise the
`specs = None` branch discards it wholesale. -/
def acceptSpecs (s : Option Specs) : Option Specs :=
  match s with
  | none => none
  | some sp =>
    if truthyQ sp.consumption_w && truthyQ sp.cooling_w then some sp else none

/-- `final_consumption = specs['consumption_w'] if specs else consumption`. -/
def final_consumption (specs : Option Specs) (m : ManualInput) : Option ℚ :=
  match specs with
  | some sp => sp.consumption_w
  | none => some m.consumption

/-- `final_cooling = specs['cooling_w'] if specs else cooling_power`. -/
def final_cooling (specs : Option Specs) (m : ManualInput) : Option ℚ :=
  match specs with
  | some sp => sp.cooling_w
  | none => some m.cooling_power

/-- The energy-class metric: `specs['energy_class'] if specs else
energy_class`. -/
def displayed_energy_class (specs : Option Specs) (m : ManualInput) : Option String :=
  match specs with
  | some sp => sp.energy_class
  | none => some m.energy_class

/-- Modelled from the spec's words, for comparison with the code: an
energy-class value in canonical form, an upper-case letter `A`–`G`
followed by at most three `+` characters. -/
def specCanonicalForm (s : String) : Bool :=
  match s.toList with
  | [] => false
  | c :: rest =>
    decide ('A' ≤ c) && decide (c ≤ 'G') && rest.all (fun x => x == '+')
      && decide (rest.length ≤ 3)

/-- Shape of every value actually returned by `find_energy_class`: a
letter `A`–`G` of either case followed by any number of `+` characters. -/
def classShape (s : String) : Bool :=
  match s.toList with
  | [] => false
  | c :: rest =>
    decide ('a' ≤ lowerChar c) && decide (lowerChar c ≤ 'g')
      && rest.all (fun x => x == '+')

/-! ### Helper lemmas -/

/-- `containsSub` decides list containment (`List.IsInfix`). -/
theorem containsSub_correct (n : List Char) (h : List Char) :
    containsSub n h = true ↔ n <:+: h := by
  induction h with
  | nil =>
    simp [containsSub, List.isEmpty_iff]
  | cons c rest ih =>
    simp only [containsSub, Bool.or_eq_true, List.isPrefixOf_iff_prefix, ih,
      List.infix_cons_iff]

/-- Every value produced by `pyFloat` is non-negative. -/
theorem pyFloat_nonneg {l : List Char} {v : ℚ} (h : pyFloat l = some v) : 0 ≤ v := by
  unfold pyFloat at h
  cases hn : pyFloatNum l with
  | none => rw [hn] at h; cases h
  | some p =>
    rw [hn] at h
    injection h with h
    rw [← h]
    positivity

/-- Every watt factor is non-negative. -/
theorem unitFactor_nonneg {u : String} {f : ℚ} (h : unitFactor u = some f) : 0 ≤ f := by
  unfold unitFactor at h
  cases hn : unitFactorNum u with
  | none => rw [hn] at h; cases h
  | some p =>
    rw [hn] at h
    injection h with h
    rw [← h]
    positivity

/-- Shape of every successful `energyValueAt` result: one letter whose
lower-case form lies in `a`–`g`, then only `+` characters. -/
theorem energyValueAt_shape {l v : List Char} (h : energyValueAt l = some v) :
    ∃ c rest, v = c :: rest ∧ ('a' ≤ lowerChar c ∧ lowerChar c ≤ 'g')
      ∧ rest.all (fun x => x == '+') = true := by
  unfold energyValueAt at h
  split at h
  · simp at h
  · split at h
    · rename_i c rest heq hc
      injection h with h
      exact ⟨c, rest.takeWhile (fun x => x == '+'), h.symm, hc, List.all_takeWhile⟩
    · simp at h

/-- Shape of every successful energy-class search result. -/
theorem energySearch_shape {l v : List Char} (h : energySearch l = some v) :
    ∃ c rest, v = c :: rest ∧ ('a' ≤ lowerChar c ∧ lowerChar c ≤ 'g')
      ∧ rest.all (fun x => x == '+') = true := by
  induction l with
  | nil => cases h
  | cons c rest ih =>
    rw [energySearch] at h
    cases hm : energyMatchAt (c :: rest) with
    | some w =>
      rw [hm] at h
      injection h with h
      subst h
      unfold energyMatchAt at hm
      cases hl : energyLabelAt (c :: rest) with
      | none => rw [hl] at hm; cases hm
      | some r => rw [hl] at hm; exact energyValueAt_shape hm
    | none =>
      rw [hm] at h
      exact ih h

/-! ### Claim theorems -/

/-- Claim C5 (confirmed): the unit converter satisfies the spec's concrete
conversions — `convert("1,5","kw") = 1500.0`, `convert("12000","btu")` is
exactly `3516.85284` watts and hence within `0.01` of `3516.85`,
`convert("500","w") = 500.0`, `convert("abc","w")` is absent, and
`convert("5","lbs")` is absent. -/
theorem convert_spec_examples :
    convert "1,5" "kw" = some 1500
    ∧ convert "12000" "btu" = some (87921321 / 25000)
    ∧ |(87921321 / 25000 : ℚ) - 351685 / 100| < 1 / 100
    ∧ convert "500" "w" = some 500
    ∧ convert "abc" "w" = none
    ∧ convert "5" "lbs" = none := by
  have e1 : ("1,5" ++ " " ++ "kw" : String) = "1,5 kw" := by decide
  have e2 : ("12000" ++ " " ++ "btu" : String) = "12000 btu" := by decide
  have e3 : ("500" ++ " " ++ "w" : String) = "500 w" := by decide
  have e4 : ("abc" ++ " " ++ "w" : String) = "abc w" := by decide
  have e5 : ("5" ++ " " ++ "lbs" : String) = "5 lbs" := by decide
  refine ⟨?_, ?_, by rw [abs_lt]; constructor <;> norm_num, ?_, ?_, ?_⟩
  · rw [convert, e1]
    have h1 : firstPowerMatch "1,5 kw".toList = some (['1', ',', '5'], "kw") := by decide
    have h2 : pyFloatNum (replaceCommas ['1', ',', '5']) = some (15, 1) := by decide
    have h3 : unitFactorNum "kw" = some (1000, 1) := by decide
    simp only [parse_power_value, h1, unitFactor, h3, pyFloat, h2, Option.map_some]
    norm_num
  · rw [convert, e2]
    have h1 : firstPowerMatch "12000 btu".toList
        = some (['1', '2', '0', '0', '0'], "btu") := by decide
    have h2 : pyFloatNum (replaceCommas ['1', '2', '0', '0', '0'])
        = some (12000, 0) := by decide
    have h3 : unitFactorNum "btu" = some (29307107, 100000000) := by decide
    simp only [parse_power_value, h1, unitFactor, h3, pyFloat, h2, Option.map_some]
    norm_num
  · rw [convert, e3]
    have h1 : firstPowerMatch "500 w".toList = some (['5', '0', '0'], "w") := by decide
    have h2 : pyFloatNum (replaceCommas ['5', '0', '0']) = some (500, 0) := by decide
    have h3 : unitFactorNum "w" = some (1, 1) := by decide
    simp only [parse_power_value, h1, unitFactor, h3, pyFloat, h2, Option.map_some]
    norm_num
  · rw [convert, e4]
    have h1 : firstPowerMatch "abc w".toList = none := by decide
    simp only [parse_power_value, h1]
  · rw [convert, e5]
    have h1 : firstPowerMatch "5 lbs".toList = none := by decide
    simp only [parse_power_value, h1]

/-- Claim C6 (confirmed): power-value parsing is a total function of its
input (the embedding returns an `Option`, never a fault), and it is absent
exactly when the pattern does not match at all (not found), or the matched
unit token has no entry in the conversion table, or the matched numeric
token fails decimal parsing — all three collapsed into the same `none`. -/
theorem parse_power_value_absent_iff (s : String) :
    parse_power_value s = none ↔
      firstPowerMatch s.toList = none
      ∨ ∃ numTok unitTok, firstPowerMatch s.toList = some (numTok, unitTok)
          ∧ (unitFactor unitTok = none ∨ pyFloat (replaceCommas numTok) = none) := by
  cases h : firstPowerMatch s.toList with
  | none =>
    unfold parse_power_value
    rw [h]
    simp
  | some p =>
    obtain ⟨numTok, unitTok⟩ := p
    unfold parse_power_value
    rw [h]
    cases h2 : unitFactor unitTok with
    | none =>
      simp only [h2]
      simp only [iff_true_intro rfl, true_iff]
      exact Or.inr ⟨numTok, unitTok, rfl, Or.inl h2⟩
    | some f =>
      cases h3 : pyFloat (replaceCommas numTok) with
      | none =>
        simp only [h2, h3]
        simp only [iff_true_intro rfl, true_iff]
        exact Or.inr ⟨numTok, unitTok, rfl, Or.inr h3⟩
      | some v => simp [h2, h3]

/-- Claim C9 (confirmed): whenever power-value parsing returns a value, it
is a non-negative number of watts. -/
theorem parse_power_value_nonneg (s : String) (q : ℚ)
    (h : parse_power_value s = some q) : 0 ≤ q := by
  unfold parse_power_value at h
  cases h1 : firstPowerMatch s.toList with
  | none => rw [h1] at h; simp at h
  | some p =>
    obtain ⟨numTok, unitTok⟩ := p
    rw [h1] at h
    cases h2 : unitFactor unitTok with
    | none => simp [h2] at h
    | some f =>
      cases h3 : pyFloat (replaceCommas numTok) with
      | none => simp [h2, h3] at h
      | some v =>
        simp only [h2, h3, Option.some.injEq] at h
        rw [← h]
        exact mul_nonneg (pyFloat_nonneg h3) (unitFactor_nonneg h2)

/-- Witness for C9 at the concrete input `"500 w"`. -/
theorem parse_power_value_nonneg_witness :
    parse_power_value "500 w" = some 500 ∧ (0 : ℚ) ≤ 500 := by
  have h1 : firstPowerMatch "500 w".toList = some (['5', '0', '0'], "w") := by decide
  have h2 : pyFloatNum (replaceCommas ['5', '0', '0']) = some (500, 0) := by decide
  have h3 : unitFactorNum "w" = some (1, 1) := by decide
  have h : parse_power_value "500 w" = some 500 := by
    simp only [parse_power_value, h1, unitFactor, h3, pyFloat, h2, Option.map_some]
    norm_num
  exact ⟨h, parse_power_value_nonneg "500 w" 500 h⟩

/-- Claim C10 (confirmed): extraction is deterministic — it is embedded as
a pure function of the text alone (no hidden state exists in the source's
function either), so two calls on identical input yield identical
`TechnicalSpec` results. -/
theorem extract_deterministic (t1 t2 : String) (h : t1 = t2) :
    extract_specs_from_text t1 = extract_specs_from_text t2 := by
  rw [h]

/-- Witness for C10 at a concrete input. -/
theorem extract_deterministic_witness :
    "Consommation: 850 W" = "Consommation: 850 W"
    ∧ extract_specs_from_text "Consommation: 850 W"
        = extract_specs_from_text "Consommation: 850 W" :=
  ⟨rfl, extract_deterministic "Consommation: 850 W" "Consommation: 850 W" rfl⟩

/-- Claim C7 (confirmed): the extraction engine always returns a
fully-formed spec (the embedding is total, with the three optional fields
`Option`-typed), and the inverter field always holds one of the two
definite values — `'Inverter'` exactly when the substring `"inverter"`
occurs in the lower-cased text, `'Non-Inverter'` otherwise, never an
absent value. -/
theorem extract_inverter_total (t : String) :
    ((extract_specs_from_text t).inverter = "Inverter"
      ∨ (extract_specs_from_text t).inverter = "Non-Inverter")
    ∧ ((extract_specs_from_text t).inverter = "Inverter"
        ↔ "inverter".toList <:+: (pyLower t).toList) := by
  have key : (extract_specs_from_text t).inverter
      = if containsSub "inverter".toList (pyLower t).toList then "Inverter"
        else "Non-Inverter" := rfl
  by_cases h : containsSub "inverter".toList (pyLower t).toList = true
  · rw [key, if_pos h]
    exact ⟨Or.inl rfl,
      ⟨fun _ => (containsSub_correct _ _).mp h, fun _ => rfl⟩⟩
  · rw [key, if_neg h]
    refine ⟨Or.inr rfl, ⟨fun hc => absurd hc (by decide), fun hi => ?_⟩⟩
    exact absurd ((containsSub_correct _ _).mpr hi) h

/-- Claim C4 (confirmed): for every environment (one outcome per model
name), when the PDF_SEARCH state fails — for any reason, all collapsed
into `pdfText = none` — the chain's trace is exactly
`[PDF_SEARCH, HTML_SEARCH]`: HTML_SEARCH is attempted exactly once,
PDF_SEARCH is never re-attempted, the PDF failure never reaches the
result (which depends only on the HTML outcome), and the result is absent
exactly when the final HTML_SEARCH state also fails. -/
theorem fetch_fallback_single_pass (env : FetchEnv) (h : env.pdfText = none) :
    (fetch_product_specs env).1 = [SourceState.PDF_SEARCH, SourceState.HTML_SEARCH]
    ∧ (fetch_product_specs env).1.count SourceState.PDF_SEARCH = 1
    ∧ (fetch_product_specs env).1.count SourceState.HTML_SEARCH = 1
    ∧ (fetch_product_specs env).2 = env.htmlText.map extract_specs_from_text
    ∧ ((fetch_product_specs env).2 = none ↔ env.htmlText = none) := by
  obtain ⟨p, ht⟩ := env
  simp only at h
  subst h
  cases ht with
  | none => exact ⟨rfl, by decide, by decide, rfl, iff_of_true rfl rfl⟩
  | some t =>
    refine ⟨rfl, ?_, ?_, rfl, by simp [fetch_product_specs, runChain, attemptSource]⟩
    all_goals rfl

/-- Witness for C4: a failing PDF state and a succeeding HTML state. -/
theorem fetch_fallback_single_pass_witness :
    (FetchEnv.mk none (some "capacity: 2kw")).pdfText = none
    ∧ ((fetch_product_specs ⟨none, some "capacity: 2kw"⟩).1
          = [SourceState.PDF_SEARCH, SourceState.HTML_SEARCH]
       ∧ (fetch_product_specs ⟨none, some "capacity: 2kw"⟩).1.count SourceState.PDF_SEARCH = 1
       ∧ (fetch_product_specs ⟨none, some "capacity: 2kw"⟩).1.count SourceState.HTML_SEARCH = 1
       ∧ (fetch_product_specs ⟨none, some "capacity: 2kw"⟩).2
          = (some "capacity: 2kw").map extract_specs_from_text
       ∧ ((fetch_product_specs ⟨none, some "capacity: 2kw"⟩).2 = none
          ↔ (some "capacity: 2kw" : Option String) = none)) :=
  ⟨rfl, fetch_fallback_single_pass ⟨none, some "capacity: 2kw"⟩ rfl⟩

/-- Claim C8 (confirmed): the automatic result passes the module-level
gate exactly when both `consumption_w` and `cooling_w` are truthy
(present and non-zero — `0.0` counts as not found, and `truthyQ` is the
Python truthiness of the optional float); when the gate rejects, the spec
is discarded wholesale and every displayed field, the energy class
included, falls back to the manual input. -/
theorem specs_acceptance_all_or_nothing (sp : Specs) (m : ManualInput) :
    truthyQ none = false
    ∧ truthyQ (some 0) = false
    ∧ (acceptSpecs (some sp)).isSome = (truthyQ sp.consumption_w && truthyQ sp.cooling_w)
    ∧ final_consumption (acceptSpecs (some sp)) m
        = (if truthyQ sp.consumption_w && truthyQ sp.cooling_w then sp.consumption_w
           else some m.consumption)
    ∧ final_cooling (acceptSpecs (some sp)) m
        = (if truthyQ sp.consumption_w && truthyQ sp.cooling_w then sp.cooling_w
           else some m.cooling_power)
    ∧ displayed_energy_class (acceptSpecs (some sp)) m
        = (if truthyQ sp.consumption_w && truthyQ sp.cooling_w then sp.energy_class
           else some m.energy_class) := by
  refine ⟨rfl, by simp [truthyQ], ?_, ?_, ?_, ?_⟩
  all_goals
    by_cases hb : (truthyQ sp.consumption_w && truthyQ sp.cooling_w) = true
  all_goals
    simp [acceptSpecs, hb, final_consumption, final_cooling, displayed_energy_class]

/-- Claim C3 counterexample: merging is not field-independent.  With an
accepted automatic spec whose energy class is absent and a manual energy
class `"A+"`, the displayed energy class is absent instead of the manual
value the claim requires. -/
theorem merge_not_field_independent :
    displayed_energy_class
        (acceptSpecs (some ⟨some 850, some 3500, "Inverter", none⟩))
        ⟨900, 0, "Non", "A+"⟩ = none
    ∧ (ManualInput.mk 900 0 "Non" "A+").energy_class = "A+" := by
  have h : acceptSpecs (some (⟨some 850, some 3500, "Inverter", none⟩ : Specs))
      = some ⟨some 850, some 3500, "Inverter", none⟩ := by
    simp only [acceptSpecs, truthyQ]
    norm_num
  rw [h]
  exact ⟨rfl, rfl⟩

/-- Claim C3 (corrected): the merge is whole-spec, not field-independent.
When the accepted automatic spec is present, the displayed consumption,
cooling and energy class all come from it, even when a field is absent;
when it is absent, all of them come from the manual input; the inverter
field is not merged or displayed at all.  The spec's two consumption
examples do hold: an absent automatic consumption makes the gate discard
the spec, so the manual value is used, while an accepted spec with
consumption `850` overrides the manual value. -/
theorem merge_whole_spec (sp : Specs) (m : ManualInput) :
    final_consumption (some sp) m = sp.consumption_w
    ∧ final_cooling (some sp) m = sp.cooling_w
    ∧ displayed_energy_class (some sp) m = sp.energy_class
    ∧ final_consumption none m = some m.consumption
    ∧ final_cooling none m = some m.cooling_power
    ∧ displayed_energy_class none m = some m.energy_class
    ∧ final_consumption (acceptSpecs (some ⟨none, some 3500, "Inverter", none⟩)) m
        = some m.consumption
    ∧ final_consumption
        (acceptSpecs (some ⟨some 850, some 3500, "Inverter", none⟩)) m = some 850 := by
  refine ⟨rfl, rfl, rfl, rfl, rfl, rfl, rfl, ?_⟩
  have h : acceptSpecs (some (⟨some 850, some 3500, "Inverter", none⟩ : Specs))
      = some ⟨some 850, some 3500, "Inverter", none⟩ := by
    simp only [acceptSpecs, truthyQ]
    norm_num
  rw [h]
  rfl

/-- Claim C1 counterexample: on the end-to-end sample text the engine does
not return `NON_INVERTER` — the lower-cased text contains `"inverter"`
inside `"non-inverter"`, so the substring test fires — and the energy
class comes back as the matched lower-case text `"a++"`, not `"A++"`. -/
theorem end_to_end_sample_refuted :
    (extract_specs_from_text "Puissance absorbée: 900W, Puissance frigorifique: 3.5kW, Non-Inverter, Classe énergétique: A++").inverter
      = "Inverter"
    ∧ "Inverter" ≠ "Non-Inverter"
    ∧ (extract_specs_from_text "Puissance absorbée: 900W, Puissance frigorifique: 3.5kW, Non-Inverter, Classe énergétique: A++").energy_class
      = some "a++"
    ∧ (some "a++" : Option String) ≠ some "A++" :=
  ⟨by decide, by decide, by decide, by decide⟩

/-- Claim C1 (corrected): on the end-to-end sample text the engine yields
consumption `900` W and cooling `3500` W as the spec says, but
`inverter = 'Inverter'` (the keyword test sees the substring `"inverter"`
in `"Non-Inverter"`) and `energy_class = "a++"` (the matched text of the
lower-cased input, no upper-casing). -/
theorem end_to_end_sample_actual :
    extract_specs_from_text "Puissance absorbée: 900W, Puissance frigorifique: 3.5kW, Non-Inverter, Classe énergétique: A++"
      = { consumption_w := some 900, cooling_w := some 3500,
          inverter := "Inverter", energy_class := some "a++" } := by
  have hc : specSearch consumptionLabels
      (pyLower "Puissance absorbée: 900W, Puissance frigorifique: 3.5kW, Non-Inverter, Classe énergétique: A++").toList
      = some "900w".toList := by decide
  have hk : specSearch coolingLabels
      (pyLower "Puissance absorbée: 900W, Puissance frigorifique: 3.5kW, Non-Inverter, Classe énergétique: A++").toList
      = some "3.5kw".toList := by decide
  have hi : containsSub "inverter".toList
      (pyLower "Puissance absorbée: 900W, Puissance frigorifique: 3.5kW, Non-Inverter, Classe énergétique: A++").toList
      = true := by decide
  have he : energySearch
      (pyLower "Puissance absorbée: 900W, Puissance frigorifique: 3.5kW, Non-Inverter, Classe énergétique: A++").toList
      = some "a++".toList := by decide
  have hp1 : parse_power_value (String.mk "900w".toList) = some 900 := by
    have h1 : firstPowerMatch (String.mk "900w".toList).toList
        = some (['9', '0', '0'], "w") := by decide
    have h2 : pyFloatNum (replaceCommas ['9', '0', '0']) = some (900, 0) := by decide
    have h3 : unitFactorNum "w" = some (1, 1) := by decide
    simp only [parse_power_value, h1, unitFactor, h3, pyFloat, h2, Option.map_some]
    norm_num
  have hp2 : parse_power_value (String.mk "3.5kw".toList) = some 3500 := by
    have h1 : firstPowerMatch (String.mk "3.5kw".toList).toList
        = some (['3', '.', '5'], "kw") := by decide
    have h2 : pyFloatNum (replaceCommas ['3', '.', '5']) = some (35, 1) := by decide
    have h3 : unitFactorNum "kw" = some (1000, 1) := by decide
    simp only [parse_power_value, h1, unitFactor, h3, pyFloat, h2, Option.map_some]
    norm_num
  simp only [extract_specs_from_text, hc, hk, hi, he, Option.some_bind, Option.map_some,
    hp1, hp2, if_true]
  rfl

/-- Claim C2 counterexample: energy-class extraction does not return the
canonical upper-case form, and it accepts more than three `+` suffixes —
`"energy class a"` yields `"a"` (not `"A"`), and `"energy class a++++"`
yields `"a++++"`, which is outside the spec's canonical value set. -/
theorem energy_class_claim_refuted :
    find_energy_class "energy class a" = some "a"
    ∧ (some "a" : Option String) ≠ some "A"
    ∧ find_energy_class "energy class a++++" = some "a++++"
    ∧ specCanonicalForm "a++++" = false :=
  ⟨by decide, by decide, by decide, by decide⟩

/-- Claim C2 (corrected): energy-class matching is case-insensitive, but
the returned value is the matched text verbatim, not upper-cased — so
`"Classe énergétique: A+++"` (matched directly, without the engine's
lower-casing) yields `"A+++"` while `"energy class a"` yields `"a"` — and
every returned value is one letter whose lower-case form is in `a`–`g`
followed by any number (not at most three) of `+` characters; when no
pattern matches, the result is absent. -/
theorem find_energy_class_amended (t r : String) (h : find_energy_class t = some r) :
    classShape r = true
    ∧ find_energy_class "Classe énergétique: A+++" = some "A+++"
    ∧ find_energy_class "energy class a" = some "a"
    ∧ find_energy_class "Consommation: 850 W" = none := by
  refine ⟨?_, by decide, by decide, by decide⟩
  unfold find_energy_class at h
  cases hs : energySearch t.toList with
  | none => rw [hs] at h; cases h
  | some v =>
    rw [hs] at h
    injection h with h
    obtain ⟨c, rest, hv, hc, hall⟩ := energySearch_shape hs
    rw [← h, hv]
    unfold classShape
    simp only [String.toList, String.mk]
    rw [decide_eq_true hc.1, decide_eq_true hc.2, hall]
    rfl

/-- Witness for the amended C2 at a concrete matching input. -/
theorem find_energy_class_amended_witness :
    find_energy_class "energy class b+" = some "b+"
    ∧ (classShape "b+" = true
       ∧ find_energy_class "Classe énergétique: A+++" = some "A+++"
       ∧ find_energy_class "energy class a" = some "a"
       ∧ find_energy_class "Consommation: 850 W" = none) :=
  ⟨by decide, find_energy_class_amended "energy class b+" "b+" (by decide)⟩

end Script5
